import Mathlib

/-!
Verification of the Nexus demonstration scripts: a shallow embedding of
`stream_processor.py` (ex0), `data_stream.py` (ex1) and `nexus_pipeline.py`
(ex2), with proofs of the pipeline, stream and manager properties stated in
the repository specification.
-/

namespace Ex2

/-- A Python value flowing through a pipeline.  The demo feeds ints, strings
and dicts through the adapters; error results are ordinary strings, so the
value domain must contain strings (the manager detects errors by inspecting
a result's text). -/
inductive PyVal where
  | vint (n : Int)
  | vstr (s : String)
deriving DecidableEq

/-- A duck-typed processing stage (`ProcessingStage` protocol): `process`
either returns a value or raises an exception carrying a message. -/
def Stage : Type := PyVal → Except String PyVal

/-- The three concrete adapter classes (`JSONAdapter`, `CSVAdapter`,
`StreamAdapter`); their `process` bodies are identical except for the tag
written into the error string. -/
inductive AdapterKind where
  | json
  | csv
  | stream
deriving DecidableEq

/-- The tag an adapter writes into its error string (`[JSON]`, `[CSV]`,
`[STREAM]`). -/
def AdapterKind.tag : AdapterKind → String
  | AdapterKind.json => "JSON"
  | AdapterKind.csv => "CSV"
  | AdapterKind.stream => "STREAM"

/-- State of a `ProcessingPipeline` subclass instance: its identifier, its
class (the adapter kind), the ordered stage list and the two counters from
`ProcessingPipeline.__init__`. -/
structure Adapter where
  pipeline_id : String
  kind : AdapterKind
  stages : List Stage
  processed_count : Nat
  error_count : Nat

/-- Source `ProcessingPipeline.add_stage`: append one stage (`self.stages += [stage]`). -/
def Adapter.add_stage (a : Adapter) (st : Stage) : Adapter :=
  { a with stages := a.stages ++ [st] }

/-- The `for stage in self.stages: result = stage.process(result)` loop: a
left-to-right fold where a raised exception aborts the remaining stages. -/
def runStages : List Stage → PyVal → Except String PyVal
  | [], r => Except.ok r
  | st :: rest, r =>
    match st r with
    | Except.ok r2 => runStages rest r2
    | Except.error e => Except.error e

/-- The tagged error value an adapter returns when a stage raises:
`f"Error: [TAG] {e}"`. -/
def errString (t e : String) : String :=
  "Error: [" ++ t ++ "] " ++ e

/-- Source `JSONAdapter.process` / `CSVAdapter.process` / `StreamAdapter.process`:
increment `processed_count`, fold the input through the stages; on an
exception increment `error_count` and return the tagged error string. -/
def Adapter.process (a : Adapter) (data : PyVal) : Adapter × PyVal :=
  let a1 := { a with processed_count := a.processed_count + 1 }
  match runStages a.stages data with
  | Except.ok r => (a1, r)
  | Except.error e =>
    ({ a1 with error_count := a1.error_count + 1 },
     PyVal.vstr (errString a.kind.tag e))

/-- The record returned by `ProcessingPipeline.get_stats`.  The source
renders `success_rate` as the one-decimal string `f"{rate:.1f}%"` for
display; the model keeps the exact computed value. -/
structure Stats where
  processed : Nat
  errors : Nat
  success_rate : Rat
deriving DecidableEq

/-- Source `ProcessingPipeline.get_stats`: `success_rate` starts at `0.0` and is
overwritten by `(processed - errors) / processed * 100` when `processed > 0`. -/
def Adapter.get_stats (a : Adapter) : Stats :=
  let rate : Rat :=
    if 0 < a.processed_count then
      (((a.processed_count : Rat) - (a.error_count : Rat)) / (a.processed_count : Rat)) * 100
    else 0
  { processed := a.processed_count, errors := a.error_count, success_rate := rate }

/-- Python's substring test `pat in s`, used by `chain_pipelines` to sniff
error markers. -/
def pyInStr (pat s : String) : Bool :=
  decide (pat.data <:+: s.data)

/-- The manager's error check on an intermediate result:
`isinstance(result, str) and "Error:" in result`. -/
def isErrorVal : PyVal → Bool
  | PyVal.vstr s => pyInStr "Error:" s
  | PyVal.vint _ => false

/-- Source `NexusManager.process_data`: linear scan for the first pipeline whose
identifier matches; delegate to its `process` (mutating that pipeline in
place); return a "not found" tagged error when no identifier matches.  The
surrounding `try/except [MANAGER]` never fires in the model: no modelled
operation raises past an adapter's own handler. -/
def processData : List Adapter → PyVal → String → List Adapter × PyVal
  | [], _, pid => ([], PyVal.vstr ("Error: Pipeline '" ++ pid ++ "' not found"))
  | p :: ps, data, pid =>
    if p.pipeline_id = pid then
      let pr := p.process data
      (pr.1 :: ps, pr.2)
    else
      let rest := processData ps data pid
      (p :: rest.1, rest.2)

/-- Source `NexusManager.chain_pipelines`: thread the result of each
`process_data` call into the next; return immediately when an intermediate
result is a string containing `"Error:"`. -/
def chainPipelines : List Adapter → PyVal → List String → List Adapter × PyVal
  | ps, data, [] => (ps, data)
  | ps, data, pid :: rest =>
    let r := processData ps data pid
    if isErrorVal r.2 then r
    else chainPipelines r.1 r.2 rest

end Ex2

namespace Ex0

/-- An input value passed to `NumericProcessor`.  `single` is a Python
number (iteration over it fails, `data + 0` succeeds), `seq` is a sequence
of numbers (iteration succeeds and every element accepts `+ 0`; an empty
string behaves exactly like `seq []`), and `other` is any value for which
both probes raise, such as a non-empty string or a list holding a
non-number. -/
inductive NumData where
  | single (q : Rat)
  | seq (xs : List Rat)
  | other
deriving DecidableEq

/-- Source `NumericProcessor.validate`: try to iterate adding `0` to each element;
on failure try `data + 0`; accept iff one of the probes succeeds.  Note the
empty sequence iterates successfully, so it is accepted. -/
def NumericProcessor.validate : NumData → Bool
  | NumData.single _ => true
  | NumData.seq _ => true
  | NumData.other => false

/-- The `numbers` list `NumericProcessor.process` assembles: the elements
of an iterable input, else the single number itself.  (`other` never
reaches this point: `process` raises at the validation gate first.) -/
def numbersOf : NumData → List Rat
  | NumData.single q => [q]
  | NumData.seq xs => xs
  | NumData.other => []

/-- The `count` variable `NumericProcessor.process` assembles alongside
`numbers`. -/
def numCount (d : NumData) : Nat := (numbersOf d).length

/-- The exceptions `NumericProcessor.process` can raise: the explicit
`ValueError("Invalid numeric data")`, and the `ZeroDivisionError` from
`avg = total / count` when `count` is zero. -/
inductive NumErr where
  | invalidInput
  | zeroDivision
deriving DecidableEq

/-- The numbers reported in the summary string
`f"Processed {count} numeric values, sum={total}, avg={avg}"`. -/
structure NumSummary where
  count : Nat
  total : Rat
  avg : Rat
deriving DecidableEq

/-- Source `NumericProcessor.process`: raise on invalid input, assemble the list
and count, sum left to right, then divide.  Python's division raises
`ZeroDivisionError` when `count = 0`, which the model makes explicit
(Lean's `Rat` division is total, Python's is not). -/
def NumericProcessor.process (d : NumData) : Except NumErr NumSummary :=
  if NumericProcessor.validate d = false then Except.error NumErr.invalidInput
  else
    let numbers := numbersOf d
    let count := numbers.length
    let total := numbers.foldl (fun a b => a + b) 0
    if count = 0 then Except.error NumErr.zeroDivision
    else Except.ok { count := count, total := total, avg := total / (count : Rat) }

/-- The whitespace test in `TextProcessor.process`:
`char == ' ' or char == '\t' or char == '\n'`. -/
def pyWhitespace (c : Char) : Bool :=
  c == ' ' || c == '\t' || c == '\n'

/-- The character loop of `TextProcessor.process`: accumulators
`char_count`, `word_count` and the `in_word` flag, updated per character
exactly as in the source. -/
def textLoop : List Char → Nat → Nat → Bool → Nat × Nat
  | [], cc, wc, _ => (cc, wc)
  | c :: rest, cc, wc, inWord =>
    if pyWhitespace c then textLoop rest (cc + 1) wc false
    else if inWord then textLoop rest (cc + 1) wc true
    else textLoop rest (cc + 1) (wc + 1) true

/-- Source `TextProcessor.process` on an accepted input (`validate` accepts
exactly the strings, so the domain is `String`): the pair
`(char_count, word_count)` reported in the summary string. -/
def TextProcessor.process (s : String) : Nat × Nat :=
  textLoop s.data 0 0 false

/-- Specification-side counter, following the spec's words: the number of
positions where a maximal non-whitespace run starts strictly inside the
text, i.e. a non-whitespace character directly preceded by whitespace. -/
def runStarts : List Char → Nat
  | [] => 0
  | [_] => 0
  | a :: b :: rest =>
    (if pyWhitespace a && !(pyWhitespace b) then 1 else 0) + runStarts (b :: rest)

/-- Specification-side word count: the number of maximal runs of
non-whitespace characters, counted as run starts (a run starts at a
non-whitespace head, or after a whitespace character). -/
def maximalRuns (l : List Char) : Nat :=
  (match l with
   | [] => 0
   | c :: _ => if pyWhitespace c then 0 else 1) + runStarts l

/-- The word count the loop adds from a given `in_word` state: the bridge
between `textLoop` and `maximalRuns`. -/
def wordsFrom : Bool → List Char → Nat
  | _, [] => 0
  | b, c :: rest =>
    if pyWhitespace c then wordsFrom false rest
    else if b then wordsFrom true rest
    else 1 + wordsFrom true rest

end Ex0

namespace Ex1

/-- A batch element, classified by the token shapes the three streams
inspect.  `temp t` is a string `"temp:<x>"` whose suffix is a float
literal with a fractional part parsing to `t` (so `int()` on it raises);
`badtemp suf` is `"temp:<suf>"` with a suffix that parses as neither float
nor int; `buy n` / `sell n` are `"buy:<n>"` / `"sell:<n>"` with an integer
literal; `badbuy suf` / `badsell suf` are `"buy:<suf>"` / `"sell:<suf>"`
with a suffix `int()` rejects (e.g. `"buy:abc"`, `"buy:1.5"`); `word s` is
any other string, holding no colon-tagged prefix (e.g. `"error"`,
`"login"`, `"humidity"`); `nonstr` is a non-string element, skipped by
every `isinstance(item, str)` guard. -/
inductive Item where
  | temp (t : Rat)
  | badtemp (suffix : String)
  | buy (n : Int)
  | sell (n : Int)
  | badbuy (suffix : String)
  | badsell (suffix : String)
  | word (s : String)
  | nonstr
deriving DecidableEq

/-- The message of the `ValueError` Python's `float()` raises on a
non-numeric suffix. -/
def floatErrMsg (suf : String) : String :=
  "could not convert string to float: '" ++ suf ++ "'"

/-- The message of the `ValueError` Python's `int()` raises on a
non-integer suffix. -/
def intErrMsg (suf : String) : String :=
  "invalid literal for int() with base 10: '" ++ suf ++ "'"

/-- State of a `SensorStream`: the `DataStream` counter plus the running
temperature totals from `SensorStream.__init__`. -/
structure SensorStream where
  stream_id : String
  processed_count : Nat
  total_temp : Rat
  temp_count : Nat
deriving DecidableEq

/-- A freshly constructed `SensorStream`. -/
def mkSensorStream (sid : String) : SensorStream :=
  { stream_id := sid, processed_count := 0, total_temp := 0, temp_count := 0 }

/-- The item loop of `SensorStream.process_batch`: accumulate every
`"temp:"` reading; a malformed reading raises out of the loop, leaving the
partial accumulations in place and skipping the rest of the method. -/
def sensorLoop : SensorStream → List Item → SensorStream × Option String
  | s, [] => (s, none)
  | s, Item.temp t :: rest =>
    sensorLoop { s with total_temp := s.total_temp + t, temp_count := s.temp_count + 1 } rest
  | s, Item.badtemp suf :: _ => (s, some (floatErrMsg suf))
  | s, _ :: rest => sensorLoop s rest

/-- Source `SensorStream.process_batch`: run the item loop; if it completes, add
the batch length to `processed_count` and report the average temperature
(`0` when no reading was ever seen); if it raises, the exception escapes
with the partially updated state. -/
def SensorStream.process_batch (s : SensorStream) (batch : List Item) :
    SensorStream × Except String String :=
  match sensorLoop s batch with
  | (s1, some e) => (s1, Except.error e)
  | (s1, none) =>
    let s2 := { s1 with processed_count := s1.processed_count + batch.length }
    let avg : Rat := if 0 < s2.temp_count then s2.total_temp / (s2.temp_count : Rat) else 0
    (s2, Except.ok ("Sensor analysis: " ++ toString batch.length
        ++ " readings processed, avg temp: " ++ toString avg ++ "°C"))

/-- The list-comprehension body of `SensorStream.filter_data` under
`"high-priority"`: keep the string items containing `"temp:"` whose parsed
reading exceeds 25; a malformed reading raises out of the comprehension. -/
def sensorFilterLoop : List Item → Except String (List Item)
  | [] => Except.ok []
  | Item.badtemp suf :: _ => Except.error (floatErrMsg suf)
  | Item.temp t :: rest =>
    match sensorFilterLoop rest with
    | Except.ok l => Except.ok (if 25 < t then Item.temp t :: l else l)
    | Except.error e => Except.error e
  | _ :: rest => sensorFilterLoop rest

/-- Source `SensorStream.filter_data`: filter under the `"high-priority"`
criterion, otherwise return the batch unchanged (`criteria` defaults to
`None`, modelled as `none`). -/
def SensorStream.filter_data (_ : SensorStream) (batch : List Item)
    (criteria : Option String) : Except String (List Item) :=
  if criteria = some "high-priority" then sensorFilterLoop batch
  else Except.ok batch

/-- State of a `TransactionStream`: the `DataStream` counter plus the
running net flow. -/
structure TransactionStream where
  stream_id : String
  processed_count : Nat
  net_flow : Int
deriving DecidableEq

/-- A freshly constructed `TransactionStream`. -/
def mkTransactionStream (sid : String) : TransactionStream :=
  { stream_id := sid, processed_count := 0, net_flow := 0 }

/-- The item loop of `TransactionStream.process_batch`: add every `"buy:"`
amount and subtract every `"sell:"` amount; a token whose suffix `int()`
rejects raises out of the loop, leaving the partial net flow in place and
skipping the rest of the method. -/
def transLoop : TransactionStream → List Item → TransactionStream × Option String
  | t, [] => (t, none)
  | t, Item.buy n :: rest => transLoop { t with net_flow := t.net_flow + n } rest
  | t, Item.sell n :: rest => transLoop { t with net_flow := t.net_flow - n } rest
  | t, Item.badbuy suf :: _ => (t, some (intErrMsg suf))
  | t, Item.badsell suf :: _ => (t, some (intErrMsg suf))
  | t, _ :: rest => transLoop t rest

/-- Source `TransactionStream.process_batch`: run the item loop; if it
completes, add the batch length to `processed_count` and report the net
flow with a `"+"` sign when it is non-negative; if a token's `int()`
raises, the exception escapes with the partially updated state and
`processed_count` is not incremented. -/
def TransactionStream.process_batch (t : TransactionStream) (batch : List Item) :
    TransactionStream × Except String String :=
  match transLoop t batch with
  | (t1, some e) => (t1, Except.error e)
  | (t1, none) =>
    let t2 := { t1 with processed_count := t1.processed_count + batch.length }
    let sign := if 0 ≤ t2.net_flow then "+" else ""
    (t2, Except.ok ("Transaction analysis: " ++ toString batch.length
        ++ " operations, net flow: " ++ sign ++ toString t2.net_flow ++ " units"))

/-- The list-comprehension body of `TransactionStream.filter_data` under
`"high-priority"`: keep the string items holding a colon whose suffix
parses with `int()` to more than 100; `int()` on a temperature token's
fractional suffix (or a malformed one) raises out of the comprehension. -/
def transFilterLoop : List Item → Except String (List Item)
  | [] => Except.ok []
  | Item.temp x :: _ => Except.error (intErrMsg (toString x))
  | Item.badtemp suf :: _ => Except.error (intErrMsg suf)
  | Item.badbuy suf :: _ => Except.error (intErrMsg suf)
  | Item.badsell suf :: _ => Except.error (intErrMsg suf)
  | Item.buy n :: rest =>
    match transFilterLoop rest with
    | Except.ok l => Except.ok (if 100 < n then Item.buy n :: l else l)
    | Except.error e => Except.error e
  | Item.sell n :: rest =>
    match transFilterLoop rest with
    | Except.ok l => Except.ok (if 100 < n then Item.sell n :: l else l)
    | Except.error e => Except.error e
  | _ :: rest => transFilterLoop rest

/-- Source `TransactionStream.filter_data`: filter under the `"high-priority"`
criterion, otherwise return the batch unchanged. -/
def TransactionStream.filter_data (_ : TransactionStream) (batch : List Item)
    (criteria : Option String) : Except String (List Item) :=
  if criteria = some "high-priority" then transFilterLoop batch
  else Except.ok batch

/-- State of an `EventStream`: the `DataStream` counter plus the running
error tally. -/
structure EventStream where
  stream_id : String
  processed_count : Nat
  error_count : Nat
deriving DecidableEq

/-- A freshly constructed `EventStream`. -/
def mkEventStream (sid : String) : EventStream :=
  { stream_id := sid, processed_count := 0, error_count := 0 }

/-- Source `EventStream.process_batch`: count the items equal to `"error"`, add
the batch length to `processed_count`, report the running tally. -/
def EventStream.process_batch (ev : EventStream) (batch : List Item) :
    EventStream × String :=
  let e1 := batch.foldl (fun acc item =>
    if item = Item.word "error" then { acc with error_count := acc.error_count + 1 }
    else acc) ev
  let e2 := { e1 with processed_count := e1.processed_count + batch.length }
  (e2, "Event analysis: " ++ toString batch.length ++ " events, "
      ++ toString e2.error_count ++ " error detected")

/-- Source `EventStream.filter_data`: keep the items equal to `"error"` under the
`"high-priority"` criterion, otherwise return the batch unchanged (this
comprehension cannot raise; the `Except` keeps the three filters
uniform). -/
def EventStream.filter_data (_ : EventStream) (batch : List Item)
    (criteria : Option String) : Except String (List Item) :=
  if criteria = some "high-priority" then
    Except.ok (batch.filter (fun i => decide (i = Item.word "error")))
  else Except.ok batch

/-- A stream held by `StreamProcessor.streams`, dispatched
polymorphically: one of the three concrete `DataStream` subclasses. -/
inductive DStream where
  | sensor (s : SensorStream)
  | transaction (t : TransactionStream)
  | event (ev : EventStream)
deriving DecidableEq

/-- Polymorphic `process_batch` dispatch: the updated stream object and
either the summary string or the message of a raised exception. -/
def DStream.process_batch : DStream → List Item → DStream × Except String String
  | DStream.sensor s, batch =>
    let r := s.process_batch batch
    (DStream.sensor r.1, r.2)
  | DStream.transaction t, batch =>
    let r := t.process_batch batch
    (DStream.transaction r.1, r.2)
  | DStream.event ev, batch =>
    let r := ev.process_batch batch
    (DStream.event r.1, Except.ok r.2)

/-- Source `StreamProcessor.process_all`: walk the streams in registration order;
stream `k` processes `data_batches[k]` (the index `i` advances by one per
stream on both the success and the exception path); a raised exception is
caught and appended as `f"Error: {e}"` — including the `IndexError` with
message `"list index out of range"` when the batch list is too short. -/
def processAll : List DStream → List (List Item) → List DStream × List String
  | [], _ => ([], [])
  | st :: rest, [] =>
    let r := processAll rest []
    (st :: r.1, ("Error: " ++ "list index out of range") :: r.2)
  | st :: rest, b :: bs =>
    let pr := st.process_batch b
    let tail := processAll rest bs
    let msg :=
      match pr.2 with
      | Except.ok out => out
      | Except.error e => "Error: " ++ e
    (pr.1 :: tail.1, msg :: tail.2)

/-- Discriminator for the malformed-temperature tokens (the only sensor
items whose parse raises). -/
def Item.isBadtemp : Item → Bool
  | Item.badtemp _ => true
  | _ => false

/-- Discriminator for the well-formed temperature tokens (whose fractional
suffix makes `int()` raise in the transaction filter). -/
def Item.isTempTok : Item → Bool
  | Item.temp _ => true
  | _ => false

/-- Discriminator for the malformed transaction tokens (the buy/sell items
whose suffix makes `int()` raise). -/
def Item.isBadnum : Item → Bool
  | Item.badbuy _ => true
  | Item.badsell _ => true
  | _ => false

/-- Specification-side predicate for the sensor filter: the item is a
parsed temperature reading above 25. -/
def sensorHighPriority : Item → Bool
  | Item.temp t => decide (25 < t)
  | _ => false

/-- Specification-side predicate for the transaction filter: the item is a
transaction token whose parsed magnitude exceeds 100. -/
def transHighPriority : Item → Bool
  | Item.buy n => decide (100 < n)
  | Item.sell n => decide (100 < n)
  | _ => false

/-- Specification-side predicate for the event filter: the item is the
literal token `"error"`. -/
def eventHighPriority (i : Item) : Bool :=
  decide (i = Item.word "error")

/-- Specification-side description of the entry `process_all` appends for
one stream: the stream's `process_batch` output on the positionally
matching batch when that batch exists and processing returns normally,
otherwise `"Error: "` followed by the exception's message (the
`IndexError` message when the batch list is too short). -/
def streamResult (st : DStream) (b? : Option (List Item)) : String :=
  match b? with
  | none => "Error: " ++ "list index out of range"
  | some b =>
    match (st.process_batch b).2 with
    | Except.ok out => out
    | Except.error e => "Error: " ++ e

end Ex1

open Ex0 Ex1 Ex2

theorem Ex2.process_fst_pipeline_id (a : Adapter) (x : PyVal) :
    (a.process x).1.pipeline_id = a.pipeline_id := by
  unfold Adapter.process
  cases runStages a.stages x <;> rfl

theorem Ex2.process_fst_kind (a : Adapter) (x : PyVal) :
    (a.process x).1.kind = a.kind := by
  unfold Adapter.process
  cases runStages a.stages x <;> rfl

theorem Ex2.isErrorVal_errString (t e : String) :
    isErrorVal (PyVal.vstr (errString t e)) = true := by
  simp only [isErrorVal, pyInStr, errString, decide_eq_true_eq]
  refine ⟨[], (" [" ++ t ++ "] " ++ e).data, ?_⟩
  simp only [List.nil_append, String.data_append, List.append_assoc]
  rfl

/-- C10: an adapter whose stage sequence is empty is an identity apart from
bookkeeping: `process x` returns `x` unchanged, increments
`processed_count` by exactly one and leaves `error_count` (and every other
field) unchanged. -/
theorem c10_empty_pipeline_identity (a : Adapter) (x : PyVal) (hs : a.stages = []) :
    a.process x = ({ a with processed_count := a.processed_count + 1 }, x) := by
  simp [Adapter.process, hs, runStages]

theorem c10_empty_pipeline_identity_witness :
    Adapter.process
        { pipeline_id := "STREAM_01", kind := AdapterKind.stream, stages := [],
          processed_count := 3, error_count := 1 } (PyVal.vint 7)
      = ({ pipeline_id := "STREAM_01", kind := AdapterKind.stream, stages := [],
           processed_count := 4, error_count := 1 }, PyVal.vint 7) :=
  c10_empty_pipeline_identity
    { pipeline_id := "STREAM_01", kind := AdapterKind.stream, stages := [],
      processed_count := 3, error_count := 1 } (PyVal.vint 7) rfl

/-- C6: `get_stats` reports `success_rate = (processed - errors) / processed * 100`
when `processed > 0`, and `0.0` when `processed = 0` (the source then renders
the value as a one-decimal percentage string). -/
theorem c6_get_stats_success_rate (a : Adapter) :
    (0 < a.processed_count →
      (a.get_stats).success_rate
        = (((a.processed_count : Rat) - (a.error_count : Rat)) / (a.processed_count : Rat)) * 100)
    ∧ (a.processed_count = 0 → (a.get_stats).success_rate = 0) := by
  constructor
  · intro h
    simp [Adapter.get_stats, h]
  · intro h
    simp [Adapter.get_stats, h]

theorem c6_get_stats_success_rate_witness :
    (Adapter.get_stats
        { pipeline_id := "JSON_01", kind := AdapterKind.json, stages := [],
          processed_count := 4, error_count := 1 }).success_rate
      = ((((4 : Nat) : Rat) - ((1 : Nat) : Rat)) / ((4 : Nat) : Rat)) * 100 :=
  (c6_get_stats_success_rate
    { pipeline_id := "JSON_01", kind := AdapterKind.json, stages := [],
      processed_count := 4, error_count := 1 }).1 (by decide)

/-- C1: for any adapter with stage sequence `[f, g, h]` and any input `x`,
`process x` returns `h (g (f x))` when every stage succeeds and otherwise
the first failing stage's error wrapped as
`"Error: [<adapter tag>] <message>"`; moreover the fold is fail-fast: when
`f` fails the result and both counters are the same whatever `g` and `h`
are, and when `g` fails they are the same whatever `h` is. -/
theorem c1_pipeline_fold (k : AdapterKind) (pid : String) (f g h : Stage)
    (pc ec : Nat) (x : PyVal) :
    ((Adapter.process
        { pipeline_id := pid, kind := k, stages := [f, g, h],
          processed_count := pc, error_count := ec } x).2
      = (match f x with
         | Except.error e => PyVal.vstr (errString k.tag e)
         | Except.ok y =>
           match g y with
           | Except.error e => PyVal.vstr (errString k.tag e)
           | Except.ok z =>
             match h z with
             | Except.error e => PyVal.vstr (errString k.tag e)
             | Except.ok w => w))
    ∧ (∀ e, f x = Except.error e → ∀ g2 h2 : Stage,
        (Adapter.process
            { pipeline_id := pid, kind := k, stages := [f, g2, h2],
              processed_count := pc, error_count := ec } x).2
          = PyVal.vstr (errString k.tag e)
        ∧ (Adapter.process
            { pipeline_id := pid, kind := k, stages := [f, g2, h2],
              processed_count := pc, error_count := ec } x).1.processed_count = pc + 1
        ∧ (Adapter.process
            { pipeline_id := pid, kind := k, stages := [f, g2, h2],
              processed_count := pc, error_count := ec } x).1.error_count = ec + 1)
    ∧ (∀ y e, f x = Except.ok y → g y = Except.error e → ∀ h2 : Stage,
        (Adapter.process
            { pipeline_id := pid, kind := k, stages := [f, g, h2],
              processed_count := pc, error_count := ec } x).2
          = PyVal.vstr (errString k.tag e)
        ∧ (Adapter.process
            { pipeline_id := pid, kind := k, stages := [f, g, h2],
              processed_count := pc, error_count := ec } x).1.processed_count = pc + 1
        ∧ (Adapter.process
            { pipeline_id := pid, kind := k, stages := [f, g, h2],
              processed_count := pc, error_count := ec } x).1.error_count = ec + 1) := by
  refine ⟨?_, ?_, ?_⟩
  · cases hf : f x with
    | error e => simp [Adapter.process, runStages, hf]
    | ok y =>
      cases hg : g y with
      | error e => simp [Adapter.process, runStages, hf, hg]
      | ok z =>
        cases hh : h z with
        | error e => simp [Adapter.process, runStages, hf, hg, hh]
        | ok w => simp [Adapter.process, runStages, hf, hg, hh]
  · intro e hf g2 h2
    refine ⟨?_, ?_, ?_⟩ <;> simp [Adapter.process, runStages, hf]
  · intro y e hf hg h2
    refine ⟨?_, ?_, ?_⟩ <;> simp [Adapter.process, runStages, hf, hg]

theorem c1_pipeline_fold_witness :
    (Adapter.process
        { pipeline_id := "CSV_01", kind := AdapterKind.csv,
          stages := [fun _ => Except.error "boom",
                     fun v => Except.ok v, fun v => Except.ok v],
          processed_count := 0, error_count := 0 } (PyVal.vint 1)).2
      = PyVal.vstr (errString AdapterKind.csv.tag "boom") :=
  ((c1_pipeline_fold AdapterKind.csv "CSV_01" (fun _ => Except.error "boom")
      (fun _ => Except.error "other") (fun v => Except.ok v) 0 0
      (PyVal.vint 1)).2.1 "boom" rfl (fun v => Except.ok v) (fun v => Except.ok v)).1

/-- C7: `process_data` scans the registered pipelines linearly: when no
registered identifier matches it returns the "pipeline not found" tagged
error and leaves every pipeline untouched; otherwise it delegates to the
first pipeline whose identifier matches (any later duplicate of the
identifier is silently ignored), replacing only that pipeline's state. -/
theorem c7_process_data_lookup :
    (∀ (ps : List Adapter) (x : PyVal) (pid : String),
      (∀ p ∈ ps, p.pipeline_id ≠ pid) →
      processData ps x pid
        = (ps, PyVal.vstr ("Error: Pipeline '" ++ pid ++ "' not found")))
    ∧ (∀ (pre : List Adapter) (p : Adapter) (post : List Adapter) (x : PyVal),
      (∀ q ∈ pre, q.pipeline_id ≠ p.pipeline_id) →
      processData (pre ++ p :: post) x p.pipeline_id
        = (pre ++ (p.process x).1 :: post, (p.process x).2)) := by
  constructor
  · intro ps x pid
    induction ps with
    | nil => intro _; rfl
    | cons q qs ih =>
      intro hall
      have hq : q.pipeline_id ≠ pid := hall q (List.mem_cons_self q qs)
      have hrest := ih (fun r hr => hall r (List.mem_cons_of_mem q hr))
      simp [processData, hq, hrest]
  · intro pre p post x
    induction pre with
    | nil =>
      intro _
      simp [processData]
    | cons q qs ih =>
      intro hall
      have hq : q.pipeline_id ≠ p.pipeline_id := hall q (List.mem_cons_self q qs)
      have hrest := ih (fun r hr => hall r (List.mem_cons_of_mem q hr))
      simp [processData, hq, hrest]

theorem c7_process_data_lookup_witness :
    processData
        [{ pipeline_id := "JSON_01", kind := AdapterKind.json, stages := [],
           processed_count := 0, error_count := 0 },
         { pipeline_id := "CSV_01", kind := AdapterKind.csv, stages := [],
           processed_count := 2, error_count := 1 },
         { pipeline_id := "CSV_01", kind := AdapterKind.stream, stages := [],
           processed_count := 5, error_count := 5 }] (PyVal.vint 9) "CSV_01"
      = ([{ pipeline_id := "JSON_01", kind := AdapterKind.json, stages := [],
            processed_count := 0, error_count := 0 },
          { pipeline_id := "CSV_01", kind := AdapterKind.csv, stages := [],
            processed_count := 3, error_count := 1 },
          { pipeline_id := "CSV_01", kind := AdapterKind.stream, stages := [],
            processed_count := 5, error_count := 5 }], PyVal.vint 9) :=
  c7_process_data_lookup.2
    [{ pipeline_id := "JSON_01", kind := AdapterKind.json, stages := [],
       processed_count := 0, error_count := 0 }]
    { pipeline_id := "CSV_01", kind := AdapterKind.csv, stages := [],
      processed_count := 2, error_count := 1 }
    [{ pipeline_id := "CSV_01", kind := AdapterKind.stream, stages := [],
       processed_count := 5, error_count := 5 }] (PyVal.vint 9)
    (by decide)

/-- C4: chaining short-circuits on the first error.  If pipeline `A`
succeeds with a non-error value and pipeline `B`'s stage fold fails on
that value, then `chain_pipelines x [A, B, C]` returns exactly `B`'s
tagged error, and pipeline `C` is never invoked: its state comes back
bit-for-bit unchanged. -/
theorem c4_chain_short_circuit (A B C : Adapter) (x : PyVal) (e : String)
    (hAB : B.pipeline_id ≠ A.pipeline_id)
    (hok : isErrorVal (A.process x).2 = false)
    (hB : runStages B.stages (A.process x).2 = Except.error e) :
    chainPipelines [A, B, C] x [A.pipeline_id, B.pipeline_id, C.pipeline_id]
      = ([(A.process x).1,
          { B with processed_count := B.processed_count + 1,
                   error_count := B.error_count + 1 },
          C],
         PyVal.vstr (errString B.kind.tag e)) := by
  have hAid : (A.process x).1.pipeline_id = A.pipeline_id :=
    Ex2.process_fst_pipeline_id A x
  have hne : ¬ ((A.process x).1.pipeline_id = B.pipeline_id) := by
    rw [hAid]
    exact fun h => hAB h.symm
  have hBproc : B.process (A.process x).2
      = ({ B with processed_count := B.processed_count + 1,
                  error_count := B.error_count + 1 },
         PyVal.vstr (errString B.kind.tag e)) := by
    generalize hgen : (A.process x).2 = v at hB ⊢
    simp [Adapter.process, hB]
  simp [chainPipelines, processData, hok, hne, hBproc, Ex2.isErrorVal_errString]

theorem c4_chain_short_circuit_witness :
    chainPipelines
        [{ pipeline_id := "A", kind := AdapterKind.json, stages := [],
           processed_count := 0, error_count := 0 },
         { pipeline_id := "B", kind := AdapterKind.csv,
           stages := [fun _ => Except.error "boom"],
           processed_count := 0, error_count := 0 },
         { pipeline_id := "C", kind := AdapterKind.stream, stages := [],
           processed_count := 0, error_count := 0 }]
        (PyVal.vint 1) ["A", "B", "C"]
      = ([{ pipeline_id := "A", kind := AdapterKind.json, stages := [],
            processed_count := 1, error_count := 0 },
          { pipeline_id := "B", kind := AdapterKind.csv,
            stages := [fun _ => Except.error "boom"],
            processed_count := 1, error_count := 1 },
          { pipeline_id := "C", kind := AdapterKind.stream, stages := [],
            processed_count := 0, error_count := 0 }],
         PyVal.vstr (errString "CSV" "boom")) :=
  c4_chain_short_circuit
    { pipeline_id := "A", kind := AdapterKind.json, stages := [],
      processed_count := 0, error_count := 0 }
    { pipeline_id := "B", kind := AdapterKind.csv,
      stages := [fun _ => Except.error "boom"],
      processed_count := 0, error_count := 0 }
    { pipeline_id := "C", kind := AdapterKind.stream, stages := [],
      processed_count := 0, error_count := 0 }
    (PyVal.vint 1) "boom" (by decide) rfl rfl

theorem Ex0.textLoop_eq (l : List Char) : ∀ (cc wc : Nat) (b : Bool),
    textLoop l cc wc b = (cc + l.length, wc + wordsFrom b l) := by
  induction l with
  | nil => intro cc wc b; simp [textLoop, wordsFrom]
  | cons c rest ih =>
    intro cc wc b
    cases hw : pyWhitespace c
    · cases b <;> simp [textLoop, wordsFrom, hw, ih, Prod.ext_iff] <;> omega
    · simp [textLoop, wordsFrom, hw, ih, Prod.ext_iff]
      omega

theorem Ex0.wordsFrom_eq (l : List Char) :
    wordsFrom true l = runStarts l ∧ wordsFrom false l = maximalRuns l := by
  induction l with
  | nil => simp [wordsFrom, runStarts, maximalRuns]
  | cons c rest ih =>
    cases rest with
    | nil =>
      cases hw : pyWhitespace c <;>
        simp [wordsFrom, runStarts, maximalRuns, hw]
    | cons d rest2 =>
      have stepT : wordsFrom true (c :: d :: rest2)
          = if pyWhitespace c then wordsFrom false (d :: rest2)
            else wordsFrom true (d :: rest2) := by
        show (if pyWhitespace c then wordsFrom false (d :: rest2)
              else if true then wordsFrom true (d :: rest2)
              else 1 + wordsFrom true (d :: rest2)) = _
        simp
      have stepF : wordsFrom false (c :: d :: rest2)
          = if pyWhitespace c then wordsFrom false (d :: rest2)
            else 1 + wordsFrom true (d :: rest2) := by
        show (if pyWhitespace c then wordsFrom false (d :: rest2)
              else if false then wordsFrom true (d :: rest2)
              else 1 + wordsFrom true (d :: rest2)) = _
        simp
      have hrs : runStarts (c :: d :: rest2)
          = (if pyWhitespace c && !(pyWhitespace d) then 1 else 0)
            + runStarts (d :: rest2) := rfl
      have hmrD : maximalRuns (d :: rest2)
          = (if pyWhitespace d then 0 else 1) + runStarts (d :: rest2) := rfl
      have hmrC : maximalRuns (c :: d :: rest2)
          = (if pyWhitespace c then 0 else 1) + runStarts (c :: d :: rest2) := rfl
      constructor
      · rw [stepT, hrs]
        cases hw : pyWhitespace c
        · simp [ih.1]
        · simp [ih.2, hmrD]
          cases hd : pyWhitespace d <;> simp [hd]
      · rw [stepF, hmrC, hrs]
        cases hw : pyWhitespace c
        · simp [ih.1]
        · simp [ih.2, hmrD]
          cases hd : pyWhitespace d <;> simp [hd]

/-- C8: on every accepted text input, `TextProcessor.process` reports a
character count equal to the number of characters iterated (spaces
included) and a word count equal to the number of maximal runs of
non-whitespace characters, whitespace being space, tab or newline; in
particular `"Hello Nexus World"` yields 17 characters and 3 words. -/
theorem c8_text_counts :
    (∀ s : String,
      TextProcessor.process s = (s.data.length, maximalRuns s.data))
    ∧ TextProcessor.process "Hello Nexus World" = (17, 3) := by
  have key : ∀ s : String,
      TextProcessor.process s = (s.data.length, maximalRuns s.data) := by
    intro s
    show textLoop s.data 0 0 false = _
    rw [Ex0.textLoop_eq]
    simp [(Ex0.wordsFrom_eq s.data).2]
  refine ⟨key, ?_⟩
  rw [key]
  rfl

/-- C3 is refuted by the empty sequence: `NumericProcessor.validate`
accepts `[]` (iterating an empty sequence succeeds), yet the count
`process` assembles is 0, and the average computation divides by zero
instead of being guarded — the division is performed and raises. -/
theorem c3_empty_sequence_counterexample :
    NumericProcessor.validate (NumData.seq []) = true
    ∧ numCount (NumData.seq []) = 0
    ∧ NumericProcessor.process (NumData.seq []) = Except.error NumErr.zeroDivision :=
  ⟨rfl, rfl, rfl⟩

/-- C3 amended: whenever `validate` accepts and the input is not the empty
sequence, the assembled count is at least 1 and `process` performs the
division safely, returning a summary; on the empty sequence `validate`
still answers true and `process` reaches the division with a zero count
(see the counterexample). -/
theorem c3_nonempty_validated_amended (d : NumData)
    (hv : NumericProcessor.validate d = true) (hne : d ≠ NumData.seq []) :
    1 ≤ numCount d
    ∧ ∃ s : NumSummary, NumericProcessor.process d = Except.ok s := by
  cases d with
  | single q => exact ⟨by simp [numCount, numbersOf], ⟨_, rfl⟩⟩
  | seq xs =>
    cases xs with
    | nil => exact absurd rfl hne
    | cons a as =>
      exact ⟨by simp [numCount, numbersOf], ⟨_, rfl⟩⟩
  | other => simp [NumericProcessor.validate] at hv

theorem c3_nonempty_validated_amended_witness :
    1 ≤ numCount (NumData.seq [1, 2, 3])
    ∧ ∃ s : NumSummary,
        NumericProcessor.process (NumData.seq [1, 2, 3]) = Except.ok s :=
  c3_nonempty_validated_amended (NumData.seq [1, 2, 3]) rfl (by decide)

theorem Ex1.sensorFilterLoop_eq (batch : List Item)
    (hb : ∀ i ∈ batch, Item.isBadtemp i = false) :
    sensorFilterLoop batch = Except.ok (batch.filter sensorHighPriority) := by
  induction batch with
  | nil => rfl
  | cons i rest ih =>
    have hrest := ih (fun j hj => hb j (List.mem_cons_of_mem i hj))
    cases i with
    | badtemp suf =>
      have hi := hb (Item.badtemp suf) (List.mem_cons_self _ _)
      simp [Item.isBadtemp] at hi
    | temp t =>
      by_cases ht : 25 < t <;>
        simp [sensorFilterLoop, hrest, List.filter_cons, sensorHighPriority, ht]
    | buy n => simp [sensorFilterLoop, hrest, List.filter_cons, sensorHighPriority]
    | sell n => simp [sensorFilterLoop, hrest, List.filter_cons, sensorHighPriority]
    | badbuy suf =>
      simp [sensorFilterLoop, hrest, List.filter_cons, sensorHighPriority]
    | badsell suf =>
      simp [sensorFilterLoop, hrest, List.filter_cons, sensorHighPriority]
    | word s => simp [sensorFilterLoop, hrest, List.filter_cons, sensorHighPriority]
    | nonstr => simp [sensorFilterLoop, hrest, List.filter_cons, sensorHighPriority]

theorem Ex1.transFilterLoop_eq (batch : List Item)
    (hb : ∀ i ∈ batch, Item.isTempTok i = false ∧ Item.isBadtemp i = false
      ∧ Item.isBadnum i = false) :
    transFilterLoop batch = Except.ok (batch.filter transHighPriority) := by
  induction batch with
  | nil => rfl
  | cons i rest ih =>
    have hrest := ih (fun j hj => hb j (List.mem_cons_of_mem i hj))
    cases i with
    | temp t =>
      have hi := (hb (Item.temp t) (List.mem_cons_self _ _)).1
      simp [Item.isTempTok] at hi
    | badtemp suf =>
      have hi := (hb (Item.badtemp suf) (List.mem_cons_self _ _)).2.1
      simp [Item.isBadtemp] at hi
    | badbuy suf =>
      have hi := (hb (Item.badbuy suf) (List.mem_cons_self _ _)).2.2
      simp [Item.isBadnum] at hi
    | badsell suf =>
      have hi := (hb (Item.badsell suf) (List.mem_cons_self _ _)).2.2
      simp [Item.isBadnum] at hi
    | buy n =>
      by_cases hn : 100 < n <;>
        simp [transFilterLoop, hrest, List.filter_cons, transHighPriority, hn]
    | sell n =>
      by_cases hn : 100 < n <;>
        simp [transFilterLoop, hrest, List.filter_cons, transHighPriority, hn]
    | word s => simp [transFilterLoop, hrest, List.filter_cons, transHighPriority]
    | nonstr => simp [transFilterLoop, hrest, List.filter_cons, transHighPriority]

/-- C5: under the `"high-priority"` criterion each stream variant's
`filter_data` returns exactly the subsequence of the batch matching its
predicate — sensor: parsed temperature above 25; transaction: parsed
magnitude above 100; event: the token `"error"` — provided every token the
predicate inspects parses (a malformed or fractional token makes the
underlying parse raise instead); under any other criterion the batch comes
back unchanged. -/
theorem c5_filter_high_priority (s : SensorStream) (t : TransactionStream)
    (ev : EventStream) (batch : List Item) (c : Option String) :
    (c ≠ some "high-priority" →
      s.filter_data batch c = Except.ok batch
      ∧ t.filter_data batch c = Except.ok batch
      ∧ ev.filter_data batch c = Except.ok batch)
    ∧ ((∀ i ∈ batch, Item.isBadtemp i = false) →
      s.filter_data batch (some "high-priority")
        = Except.ok (batch.filter sensorHighPriority))
    ∧ ((∀ i ∈ batch, Item.isTempTok i = false ∧ Item.isBadtemp i = false
          ∧ Item.isBadnum i = false) →
      t.filter_data batch (some "high-priority")
        = Except.ok (batch.filter transHighPriority))
    ∧ ev.filter_data batch (some "high-priority")
        = Except.ok (batch.filter eventHighPriority) := by
  refine ⟨?_, ?_, ?_, ?_⟩
  · intro hc
    refine ⟨?_, ?_, ?_⟩ <;>
      simp [SensorStream.filter_data, TransactionStream.filter_data,
            EventStream.filter_data, hc]
  · intro hb
    simp [SensorStream.filter_data, Ex1.sensorFilterLoop_eq batch hb]
  · intro hb
    simp [TransactionStream.filter_data, Ex1.transFilterLoop_eq batch hb]
  · rfl

theorem c5_filter_high_priority_witness :
    SensorStream.filter_data (mkSensorStream "SENSOR_003")
        [Item.temp 26, Item.temp 24, Item.temp 27] (some "high-priority")
      = Except.ok [Item.temp 26, Item.temp 27]
    ∧ TransactionStream.filter_data (mkTransactionStream "TRANS_003")
        [Item.buy 150, Item.sell 50] (some "high-priority")
      = Except.ok [Item.buy 150] := by
  constructor
  · rw [(c5_filter_high_priority (mkSensorStream "SENSOR_003")
        (mkTransactionStream "TRANS_003") (mkEventStream "EVENT_003")
        [Item.temp 26, Item.temp 24, Item.temp 27] none).2.1 (by decide)]
    rfl
  · rw [(c5_filter_high_priority (mkSensorStream "SENSOR_003")
        (mkTransactionStream "TRANS_003") (mkEventStream "EVENT_003")
        [Item.buy 150, Item.sell 50] none).2.2.1 (by decide)]
    rfl

/-- C9: `process_all` never raises and returns exactly one result per
registered stream, in registration order: the stream's `process_batch`
output on the positionally matching batch, or — when processing raises or
the batch list is shorter than the stream list — the exception captured
as a string beginning with `"Error: "` (see `streamResult`). -/
theorem c9_process_all_results (streams : List DStream) (batches : List (List Item)) :
    (processAll streams batches).2.length = streams.length
    ∧ ∀ k : Nat, (processAll streams batches).2[k]?
        = (streams[k]?).map (fun st => streamResult st batches[k]?) := by
  induction streams generalizing batches with
  | nil => exact ⟨rfl, fun k => by simp [processAll]⟩
  | cons st rest ih =>
    cases batches with
    | nil =>
      refine ⟨by simp [processAll, (ih []).1], fun k => ?_⟩
      cases k with
      | zero => simp [processAll, streamResult]
      | succ k2 =>
        simp only [processAll, List.getElem?_cons_succ, List.getElem?_nil]
        rw [(ih []).2 k2]
        simp [List.getElem?_nil]
    | cons b bs =>
      refine ⟨by simp [processAll, (ih bs).1], fun k => ?_⟩
      cases k with
      | zero => simp [processAll, streamResult]
      | succ k2 =>
        simp only [processAll, List.getElem?_cons_succ]
        rw [(ih bs).2 k2]
